import Mathlib

/-!
Shallow embedding of the caplug-rs CoreAudio plug-in binding layer
(crate `cahal`): the typed property marshaling core (`src/cahal/src/property.rs`),
the audio-object tree (`src/cahal/src/audio_object.rs`) and the COM-style
plug-in lifecycle (`src/cahal/src/plugin_driver_interface.rs`).

Raw pointers are modelled as natural-number addresses (0 = null); the value
readable through a pointer is passed alongside the address, and writes through
an out-pointer are captured as `Option` components of the result.  Machine
`u32` arithmetic wraps modulo `2 ^ 32` where the source wraps.
-/

namespace Cahal

/-- The typed error codes of `cahal::os_err::OSStatusError` (each wraps a fixed
nonzero CoreAudio status constant from `coreaudio_sys`; the constructors stand
for those distinct nonzero codes). -/
inductive OSStatusError where
  | HW_NOT_RUNNING_ERR
  | HW_UNSPECIFIED_ERR
  | HW_UNKNOWN_PROP_ERR
  | HW_BAD_PROPERTY_SIZE_ERR
  | HW_ILLEGAL_OPERATION_ERR
  | HW_BAD_OBJECT_ERR
  | HW_BAD_DEVICE_ERR
  | HW_BAD_STREAM_ERR
  | HW_UNSUPPORTED_OP
  | HW_NOT_READ_ERR
  | DEV_UNSUPPORTED_FMT_ERR
  | DEV_PERMISSIONS_ERR
deriving DecidableEq, Repr

/-- `OSStatus = Result<(), OSStatusError>` from `cahal::os_err`. -/
abbrev OSStatus := Except OSStatusError Unit

/-- `Prop<T, SEL, MUTABLE_PROP>` from `src/cahal/src/property.rs`: a scalar
typed property.  `sel` is the `SEL` const generic, `mutableProp` the
`MUTABLE_PROP` const generic, `size`/`align` are `size_of::<T>()` and
`align_of::<T>()`, and `val` is the wrapped value of type `T`. -/
structure ScalarProp (α : Type) where
  sel : Nat
  mutableProp : Bool
  size : Nat
  align : Nat
  val : α
deriving DecidableEq, Repr

/-- `Prop::<T, SEL, MUTABLE_PROP>::set(&mut self, data, data_size)`.
`srcAddr` is the address of `data`, `srcVal` the `T` value stored at that
address (what `ptr::read(data as *const T)` yields).  The result pairs the
returned `OSStatus` with the property state after the call: every
`ret_assert!` early return leaves `self` untouched, and only the final
`self.0 = val` assignment replaces the stored value. -/
def ScalarProp.set {α : Type} (p : ScalarProp α) (srcAddr : Nat) (srcVal : α)
    (dataSize : Nat) : OSStatus × ScalarProp α :=
  if srcAddr = 0 then
    (.error .HW_ILLEGAL_OPERATION_ERR, p)
  else if ¬ srcAddr % p.align = 0 then
    (.error .HW_BAD_OBJECT_ERR, p)
  else if ¬ dataSize = p.size then
    (.error .HW_BAD_PROPERTY_SIZE_ERR, p)
  else if ¬ p.mutableProp then
    (.error .HW_UNSPECIFIED_ERR, p)
  else
    (.ok (), { p with val := srcVal })

/-- Captures the writes a `get` call performs through its two out-pointers:
`dataOut` is the value written through `data_out` (`none` when the pointer was
never written), `lenOut` the `u32` written through `data_len_out`. -/
structure GetEffect (α : Type) where
  dataOut : Option α
  lenOut : Option Nat
deriving DecidableEq, Repr

/-- `Prop::<T, SEL, MUTABLE_PROP>::get(&self, out_alloc_size, data_out,
data_len_out)`.  Mirrors the source's check order: null checks, then the
capacity check, then the alignment check on `data_out`; on success it writes
`self.0.clone()` through `data_out` and returns `Ok(())`.  The source body
contains no store to `data_len_out`, so `lenOut` is `none` on every path. -/
def ScalarProp.get {α : Type} (p : ScalarProp α) (outAllocSize : Nat)
    (dataOutAddr : Nat) (dataLenOutAddr : Nat) : OSStatus × GetEffect α :=
  if dataOutAddr = 0 ∨ dataLenOutAddr = 0 then
    (.error .HW_ILLEGAL_OPERATION_ERR, ⟨none, none⟩)
  else if ¬ p.size ≤ outAllocSize then
    (.error .HW_BAD_PROPERTY_SIZE_ERR, ⟨none, none⟩)
  else if ¬ dataOutAddr % p.align = 0 then
    (.error .HW_BAD_OBJECT_ERR, ⟨none, none⟩)
  else
    (.ok (), ⟨some p.val, none⟩)

/-- `ArrayProp<T, SEL, MUTABLE_PROP>` from `src/cahal/src/property.rs`: an
ordered sequence of `T` values.  `itemSize` is the `ITEM_SIZE` associated
constant (`size_of::<T>()`), `align` is `align_of::<T>()`. -/
structure ArrayProp (α : Type) where
  sel : Nat
  mutableProp : Bool
  itemSize : Nat
  align : Nat
  props : List α
deriving DecidableEq, Repr

/-- `ArrayProp::byte_size` = `ITEM_SIZE * self.len() as u32` (u32 product). -/
def ArrayProp.byte_size {α : Type} (p : ArrayProp α) : Nat :=
  p.itemSize * p.props.length % 2 ^ 32

/-- `ArrayProp::<T, SEL, MUTABLE_PROP>::set(&mut self, data, data_size)`.
`srcVals` is the sequence of `T` values laid out in memory starting at
`srcAddr`; the source reads `data_size / ITEM_SIZE` of them with
`slice::from_raw_parts` and replaces `self.props` with them
(`clear` + `extend_from_slice`), after the checks in source order:
null, size (`data_size == ITEM_SIZE`), alignment, mutability. -/
def ArrayProp.set {α : Type} (p : ArrayProp α) (srcAddr : Nat)
    (srcVals : List α) (dataSize : Nat) : OSStatus × ArrayProp α :=
  if srcAddr = 0 then
    (.error .HW_ILLEGAL_OPERATION_ERR, p)
  else if ¬ dataSize = p.itemSize then
    (.error .HW_BAD_PROPERTY_SIZE_ERR, p)
  else if ¬ srcAddr % p.align = 0 then
    (.error .HW_BAD_OBJECT_ERR, p)
  else if ¬ p.mutableProp then
    (.error .HW_UNSPECIFIED_ERR, p)
  else
    (.ok (), { p with props := srcVals.take (dataSize / p.itemSize) })

/-- Outcome of `ArrayProp::get`: either a normal return (the element sequence
written through `data_out` and the `u32` written through `data_len_out`), an
error status, or a Rust panic aborting the call. -/
inductive ArrayGetOutcome (α : Type) where
  | ok (written : List α) (lenOut : Nat)
  | err (e : OSStatusError)
  | panicked
deriving DecidableEq, Repr

/-- `ArrayProp::<T, SEL, MUTABLE_PROP>::get(&self, out_alloc_size, data_out,
data_len_out)`.  After the checks (null, `out_alloc_size >= ITEM_SIZE`,
alignment) the source builds the destination slice `s` of
`out_alloc_size / ITEM_SIZE` elements and the source slice
`&self.props[0 .. min(s.len(), self.props.len())]`, then calls
`s.copy_from_slice(slice)` — which panics whenever the two lengths differ,
i.e. whenever the destination capacity exceeds the stored count.  On the
non-panicking path it stores `to_copy * ITEM_SIZE` (checked `try_into` to
`u32`, `BadPropertySize` on overflow) through `data_len_out`. -/
def ArrayProp.get {α : Type} (p : ArrayProp α) (outAllocSize : Nat)
    (dataOutAddr : Nat) (dataLenOutAddr : Nat) : ArrayGetOutcome α :=
  if dataOutAddr = 0 ∨ dataLenOutAddr = 0 then
    .err .HW_ILLEGAL_OPERATION_ERR
  else if ¬ p.itemSize ≤ outAllocSize then
    .err .HW_BAD_PROPERTY_SIZE_ERR
  else if ¬ dataOutAddr % p.align = 0 then
    .err .HW_BAD_OBJECT_ERR
  else
    let sLen := outAllocSize / p.itemSize
    let toCopy := min sLen p.props.length
    let slice := p.props.take (min sLen p.props.length)
    if ¬ sLen = slice.length then
      .panicked
    else if ¬ toCopy * p.itemSize < 2 ^ 32 then
      .err .HW_BAD_PROPERTY_SIZE_ERR
    else
      .ok slice (toCopy * p.itemSize)

/-- A node of the audio-object tree from `src/cahal/src/audio_object.rs`.
`own` models the node's `HasProperties::get_object_property` implementation —
its fixed property slots as a static selector-to-property table (for
`AudioObjectBase` this is the five-armed `match` over the base-class, class,
name, owned-objects and owner selectors); `subs` is the `subobjects()` list in
declaration order.  `π` stands for the `&dyn RawProperty` a lookup returns. -/
inductive AudioObject (π : Type) where
  | mk (own : List (Nat × π)) (subs : List (AudioObject π))

mutual

/-- `AudioObject::get_property(&self, sel)` (the trait's default body): first
`get_object_property` on the node's own slots, then the sub-objects in order,
returning the first hit, `None` otherwise. -/
def AudioObject.get_property {π : Type} :
    AudioObject π → Nat → Option π
  | .mk own subs, sel =>
    match List.lookup sel own with
    | some p => some p
    | none => AudioObject.get_property_subs subs sel

/-- The `for obj in self.subobjects() { if let Some(prop) = obj.get_property(sel)
{ return Some(prop); } }` loop of `AudioObject::get_property`. -/
def AudioObject.get_property_subs {π : Type} :
    List (AudioObject π) → Nat → Option π
  | [], _ => none
  | o :: rest, sel =>
    match AudioObject.get_property o sel with
    | some p => some p
    | none => AudioObject.get_property_subs rest sel

end

mutual

/-- Specification helper: all properties matching `sel` in the tree, in the
resolution order the spec describes — the node's own slots first, then each
owned sub-object's matches depth-first in declaration order. -/
def AudioObject.foundProps {π : Type} : AudioObject π → Nat → List π
  | .mk own subs, sel =>
    ((own.filter (fun q => q.1 = sel)).map (fun q => q.2)) ++
      AudioObject.foundPropsSubs subs sel

/-- Concatenation of `foundProps` over a sub-object list, in order. -/
def AudioObject.foundPropsSubs {π : Type} :
    List (AudioObject π) → Nat → List π
  | [], _ => []
  | o :: rest, sel =>
    AudioObject.foundProps o sel ++ AudioObject.foundPropsSubs rest sel

end

/-- The sixteen raw bytes of a `CFUUID`, as `CFUUIDCreateFromUUIDBytes` /
`CFUUIDGetConstantUUIDWithBytes` receive them. -/
abbrev UUIDBytes := List Nat

/-- The universal IUnknown interface id `00000000-0000-0000-C000-000000000046`
(`I_UNKNOWN_INTERFACE` in `src/cahal/src/plugin_driver_interface.rs`). -/
def I_UNKNOWN_INTERFACE : UUIDBytes :=
  [0x00, 0x00, 0x00, 0x00, 0x00, 0x00, 0x00, 0x00, 0xC0, 0x00, 0x00, 0x00,
   0x00, 0x00, 0x00, 0x46]

/-- The audio-server plug-in driver interface id
`EEA5773D-CC43-49F1-8E00-8F96E7D23B17`
(`AUDIO_SERVER_DRIVER_PLUGIN_INTERFACE` in the source). -/
def AUDIO_SERVER_DRIVER_PLUGIN_INTERFACE : UUIDBytes :=
  [0xEE, 0xA5, 0x77, 0x3D, 0xCC, 0x43, 0x49, 0xF1, 0x8E, 0x00, 0x8F, 0x96,
   0xE7, 0xD2, 0x3B, 0x17]

/-- The audio-server plug-in driver type id
`443ABAB8-E7B3-491A-B985-BEB9187030DB`
(`AUDIO_SERVER_DRIVER_PLUGIN_TYPE` in the source). -/
def AUDIO_SERVER_DRIVER_PLUGIN_TYPE : UUIDBytes :=
  [0x44, 0x3A, 0xBA, 0xB8, 0xE7, 0xB3, 0x49, 0x1A, 0xB9, 0x85, 0xBE, 0xB9,
   0x18, 0x70, 0x30, 0xDB]

/-- `kAudioHardwareIllegalOperationError` — the FourCC `nope` from the
CoreAudio headers (`coreaudio_sys`), as returned raw by the vtable entry
points. -/
def kAudioHardwareIllegalOperationError : Nat := 0x6E6F7065

/-- `E_NOINTERFACE` from `CFPlugInCOM.h`: the literal `0x80000004u32 as i32`
used by `query_interface` when no interface matches. -/
def E_NOINTERFACE : Int := (0x80000004 : Int) - 2 ^ 32

/-- Result of `query_interface`: the returned `HRESULT` and the pointer value
written through `out_interface` (`none` when that out-pointer was left
untouched). -/
structure QueryInterfaceResult where
  status : Int
  outWritten : Option Nat
deriving DecidableEq, Repr

/-- `RawAudioServerPlugInDriverInterface::query_interface(driver, in_uuid,
out_interface)` from `src/cahal/src/plugin_driver_interface.rs`.  `driver` is
the opaque driver pointer argument, `inUuid` the sixteen `REFIID` bytes and
`outInterfaceAddr` the address of `out_interface`.  A null `out_interface` is
rejected first with `kAudioHardwareIllegalOperationError`; then the UUID built
from the bytes is compared (`CFEqual`) against the plug-in interface id and the
IUnknown id: on a match the very `driver` pointer is written through
`out_interface` and 0 (`HRESULT` ok) returned, otherwise `E_NOINTERFACE` is
returned with `out_interface` untouched.  (The `CFUUIDCreateFromUUIDBytes`
allocation is modelled as always succeeding; its failure branch is unreachable
for the in-range byte inputs considered here.) -/
def query_interface (driver : Nat) (inUuid : UUIDBytes)
    (outInterfaceAddr : Nat) : QueryInterfaceResult :=
  if outInterfaceAddr = 0 then
    ⟨Int.ofNat kAudioHardwareIllegalOperationError, none⟩
  else if inUuid = AUDIO_SERVER_DRIVER_PLUGIN_INTERFACE ∨
      inUuid = I_UNKNOWN_INTERFACE then
    ⟨0, some driver⟩
  else
    ⟨E_NOINTERFACE, none⟩

/-- `PluginDriverImplementation<T>` from
`src/cahal/src/plugin_driver_interface.rs`: the heap container handed to the
host.  `refcount` is the `AtomicU32` (its `u32` value), `state` the user
driver state `T`.  (The `implementation` field — a pointer to the per-type
static vtable — carries no claim-relevant data and is not modelled.) -/
structure PluginDriverImplementation (σ : Type) where
  refcount : Nat
  state : σ
deriving DecidableEq, Repr

/-- `RawAudioServerPlugInDriverInterface::create(alloc, requested_uuid)`:
after logger initialization, compares (`CFEqual`) the requested type UUID with
`AUDIO_SERVER_DRIVER_PLUGIN_TYPE`; on a match constructs the user driver state
and boxes a `PluginDriverImplementation` with refcount 1, returning the raw
pointer to it; on a mismatch returns a null pointer.  `driverState` stands for
the value `Implementation::create(alloc)` produced; `none` models the null
return. -/
def create {σ : Type} (requestedUuid : UUIDBytes) (driverState : σ) :
    Option (PluginDriverImplementation σ) :=
  if requestedUuid = AUDIO_SERVER_DRIVER_PLUGIN_TYPE then
    some ⟨1, driverState⟩
  else
    none

/-- `RawAudioServerPlugInDriverInterface::retain(driver)` acting on the
refcount of a non-null container: `fetch_add(1, SeqCst)` (wrapping `u32`
increment) and then the returned `ULONG` — `0` when the previous count was
`0`, `prev_count + 1` (u32 arithmetic, release profile) otherwise.  The result
pairs the return value with the stored count after the call. -/
def retain (refcount : Nat) : Nat × Nat :=
  let prev := refcount
  let newCount := (prev + 1) % 2 ^ 32
  (if prev = 0 then 0 else (prev + 1) % 2 ^ 32, newCount)

/-- `RawAudioServerPlugInDriverInterface::release(driver)` acting on the
refcount of a non-null container: `fetch_update` with `saturating_sub(1)`
(never deallocating anything), returning the decremented (saturated) value.
The result pairs the return value with the stored count after the call; `Nat`
subtraction is exactly `saturating_sub`. -/
def release (refcount : Nat) : Nat × Nat :=
  let newCount := refcount - 1
  (newCount, newCount)

/-- `retain` on the raw `driver` pointer: a null pointer short-circuits to a
`0` return without any container access. -/
def retainRaw {σ : Type} :
    Option (PluginDriverImplementation σ) →
      Nat × Option (PluginDriverImplementation σ)
  | none => (0, none)
  | some cont =>
    let r := retain cont.refcount
    (r.1, some { cont with refcount := r.2 })

/-- `release` on the raw `driver` pointer: a null pointer short-circuits to a
`0` return; otherwise the container survives with a saturating-decremented
count — there is no deallocation branch in the source. -/
def releaseRaw {σ : Type} :
    Option (PluginDriverImplementation σ) →
      Nat × Option (PluginDriverImplementation σ)
  | none => (0, none)
  | some cont =>
    let r := release cont.refcount
    (r.1, some { cont with refcount := r.2 })

/-- A retain or release call, for describing interleavings of the two. -/
inductive RefOp where
  | retainOp
  | releaseOp
deriving DecidableEq, Repr

/-- The stored refcount after a sequence of retain/release calls. -/
def applyRefOps (ops : List RefOp) (c : Nat) : Nat :=
  ops.foldl (fun c op =>
    match op with
    | .retainOp => (retain c).2
    | .releaseOp => (release c).2) c

/-- A settable scalar property instance used as a concrete test input:
`Prop::<u32, 5, true>` holding `42` (so `size = align = 4`). -/
def sampleScalar : ScalarProp Nat :=
  { sel := 5, mutableProp := true, size := 4, align := 4, val := 42 }

/-- A non-settable scalar property instance: `Prop::<u32, 6, false>`. -/
def sampleScalarRO : ScalarProp Nat :=
  { sel := 6, mutableProp := false, size := 4, align := 4, val := 42 }

/-- A settable, initially empty array property instance:
`ArrayProp::<u32, 9, true>`. -/
def sampleArray : ArrayProp Nat :=
  { sel := 9, mutableProp := true, itemSize := 4, align := 4, props := [] }

/-- `sampleArray` after a successful single-element `set` stored `[7]`. -/
def sampleArrayOne : ArrayProp Nat :=
  { sel := 9, mutableProp := true, itemSize := 4, align := 4, props := [7] }

/-- A non-settable array property instance: `ArrayProp::<u32, 10, false>`. -/
def sampleArrayRO : ArrayProp Nat :=
  { sel := 10, mutableProp := false, itemSize := 4, align := 4, props := [] }

/-- A three-level object tree: the root owns one property (selector 1), its
only child owns none, and the grandchild owns the property 7 under
selector 42. -/
def grandchildTree : AudioObject Nat :=
  .mk [(1, 100)] [.mk [] [.mk [(42, 7)] []]]

/-- The all-zero UUID `00000000-0000-0000-0000-000000000000`. -/
def zeroUuid : UUIDBytes := List.replicate 16 0

/-- Helper: `Prop::set` either leaves the stored state untouched or returns
`Ok` having replaced the value with the one read from `src`. -/
theorem scalarSet_state {α : Type} (p : ScalarProp α) (srcAddr : Nat)
    (srcVal : α) (dataSize : Nat) :
    (p.set srcAddr srcVal dataSize).2 = p ∨
      p.set srcAddr srcVal dataSize = (.ok (), { p with val := srcVal }) := by
  unfold ScalarProp.set
  split
  · exact Or.inl rfl
  · split
    · exact Or.inl rfl
    · split
      · exact Or.inl rfl
      · split
        · exact Or.inl rfl
        · exact Or.inr rfl

/-- Helper: a successful `Prop::set` had a non-null aligned `src`, the exact
byte size, and a settable property. -/
theorem scalarSet_ok_conditions {α : Type} {p : ScalarProp α} {srcAddr : Nat}
    {srcVal : α} {dataSize : Nat}
    (h : (p.set srcAddr srcVal dataSize).1 = .ok ()) :
    srcAddr ≠ 0 ∧ srcAddr % p.align = 0 ∧ dataSize = p.size ∧
      p.mutableProp := by
  unfold ScalarProp.set at h
  repeat' split at h <;> simp_all

/-- Helper: `ArrayProp::set` either leaves the stored state untouched or
returns `Ok` having replaced the sequence with the elements read from `src`. -/
theorem arraySet_state {α : Type} (q : ArrayProp α) (srcAddr : Nat)
    (srcVals : List α) (dataSize : Nat) :
    (q.set srcAddr srcVals dataSize).2 = q ∨
      q.set srcAddr srcVals dataSize =
        (.ok (), { q with props := srcVals.take (dataSize / q.itemSize) }) := by
  unfold ArrayProp.set
  split
  · exact Or.inl rfl
  · split
    · exact Or.inl rfl
    · split
      · exact Or.inl rfl
      · split
        · exact Or.inl rfl
        · exact Or.inr rfl

/-- Helper: a successful `ArrayProp::set` had a non-null aligned `src`, a byte
size of exactly one element, and a settable property. -/
theorem arraySet_ok_conditions {α : Type} {q : ArrayProp α} {srcAddr : Nat}
    {srcVals : List α} {dataSize : Nat}
    (h : (q.set srcAddr srcVals dataSize).1 = .ok ()) :
    srcAddr ≠ 0 ∧ dataSize = q.itemSize ∧ srcAddr % q.align = 0 ∧
      q.mutableProp := by
  unfold ArrayProp.set at h
  repeat' split at h <;> simp_all

/-- Claim C1: the claim expects `set` of one element followed by `get` into a
buffer of capacity `c` elements to succeed with `min(c, k)` elements written
and `out_len = min(c, k) * n` (silent truncation, never an error).  The code
instead panics whenever the capacity exceeds the stored count: after storing
`[7]` (k = 1, element size 4), `get` with capacity 1 element behaves as
claimed, but `get` with capacity 2 elements (`out_alloc_size = 8`) reaches
`s.copy_from_slice(slice)` with slices of lengths 2 and 1 and panics. -/
theorem array_set_get_capacity_panic :
    sampleArray.set 4 [7] 4 = (.ok (), sampleArrayOne) ∧
    sampleArrayOne.get 4 4 8 = .ok [7] 4 ∧
    sampleArrayOne.get 8 4 8 = .panicked :=
  ⟨rfl, rfl, rfl⟩

/-- Claim C2: on the success path the claim expects `byte_size()` to be
written into `*out_len`, but `Prop::get` contains no store to `data_len_out`
on any path (even though it null-checks that pointer): the `lenOut` component
is `none` for every input, and a fully valid call copies the stored value yet
leaves `*out_len` unwritten. -/
theorem scalar_get_never_writes_len {α : Type} (p : ScalarProp α)
    (cap dOut dLen : Nat) :
    (p.get cap dOut dLen).2.lenOut = none ∧
    sampleScalar.get 4 4 8 = (.ok (), ⟨some 42, none⟩) := by
  refine ⟨?_, rfl⟩
  unfold ScalarProp.get
  split
  · rfl
  · split
    · rfl
    · split <;> rfl

/-- Claim C3: `Prop::set` fails with `IllegalOperation` on a null `src`, with
`BadObject` on a misaligned `src`, with `BadPropertySize` when
`src_size != byte_size()`, and when all checks pass on a settable property it
replaces the stored value with the value read from `src`. -/
theorem scalar_set_contract {α : Type} (p : ScalarProp α) (srcAddr : Nat)
    (srcVal : α) (dataSize : Nat) :
    (srcAddr = 0 →
      p.set srcAddr srcVal dataSize = (.error .HW_ILLEGAL_OPERATION_ERR, p)) ∧
    (srcAddr ≠ 0 → ¬ srcAddr % p.align = 0 →
      p.set srcAddr srcVal dataSize = (.error .HW_BAD_OBJECT_ERR, p)) ∧
    (srcAddr ≠ 0 → srcAddr % p.align = 0 → dataSize ≠ p.size →
      p.set srcAddr srcVal dataSize =
        (.error .HW_BAD_PROPERTY_SIZE_ERR, p)) ∧
    (srcAddr ≠ 0 → srcAddr % p.align = 0 → dataSize = p.size →
      p.mutableProp →
      p.set srcAddr srcVal dataSize = (.ok (), { p with val := srcVal })) := by
  refine ⟨fun h => ?_, fun h1 h2 => ?_, fun h1 h2 h3 => ?_,
    fun h1 h2 h3 h4 => ?_⟩ <;>
    simp [ScalarProp.set, *]

/-- Witness for claim C3 at a concrete input: a valid aligned single-`u32`
write into the settable `sampleScalar` replaces the stored value with `7`. -/
theorem scalar_set_contract_witness :
    sampleScalar.set 4 (7 : Nat) 4 = (.ok (), { sampleScalar with val := 7 }) :=
  (scalar_set_contract sampleScalar 4 7 4).2.2.2 (by decide) (by decide)
    (by decide) (by decide)

/-- Claim C4: every failing path of `Prop::set` and `ArrayProp::set` returns
with the stored property state exactly as it was (validation precedes the
mutation), and `set` on a non-settable property never succeeds — with an
otherwise valid buffer it fails with the not-settable error
(`HW_UNSPECIFIED_ERR`, the spec's "Unspecified/illegal-operation" kind) and
does not alter stored state.  (`Prop::get` and `ArrayProp::get` take `&self`
and cannot mutate the stored state on any path.) -/
theorem accessor_failure_preserves_state {α : Type} (p : ScalarProp α)
    (q : ArrayProp α) (srcAddr : Nat) (srcVal : α) (srcVals : List α)
    (dataSize : Nat) (e e' : OSStatusError) :
    ((p.set srcAddr srcVal dataSize).1 = .error e →
      (p.set srcAddr srcVal dataSize).2 = p) ∧
    ((q.set srcAddr srcVals dataSize).1 = .error e' →
      (q.set srcAddr srcVals dataSize).2 = q) ∧
    (¬ p.mutableProp → (p.set srcAddr srcVal dataSize).1 ≠ .ok ()) ∧
    (¬ p.mutableProp → srcAddr ≠ 0 → srcAddr % p.align = 0 →
      dataSize = p.size →
      p.set srcAddr srcVal dataSize = (.error .HW_UNSPECIFIED_ERR, p)) ∧
    (¬ q.mutableProp → (q.set srcAddr srcVals dataSize).1 ≠ .ok ()) ∧
    (¬ q.mutableProp → srcAddr ≠ 0 → srcAddr % q.align = 0 →
      dataSize = q.itemSize →
      q.set srcAddr srcVals dataSize = (.error .HW_UNSPECIFIED_ERR, q)) := by
  refine ⟨fun h => ?_, fun h => ?_, fun hm hok => ?_, fun hm h1 h2 h3 => ?_,
    fun hm hok => ?_, fun hm h1 h2 h3 => ?_⟩
  · rcases scalarSet_state p srcAddr srcVal dataSize with h' | h'
    · exact h'
    · rw [h'] at h; simp at h
  · rcases arraySet_state q srcAddr srcVals dataSize with h' | h'
    · exact h'
    · rw [h'] at h; simp at h
  · exact hm (scalarSet_ok_conditions hok).2.2.2
  · simp [ScalarProp.set, h1, h2, h3, hm]
  · exact hm (arraySet_ok_conditions hok).2.2.2
  · simp [ArrayProp.set, h1, h2, h3, hm]

/-- Witness for claim C4 at a concrete input: `set` on the non-settable
`sampleScalarRO` with a valid buffer fails with `HW_UNSPECIFIED_ERR` and
leaves the stored state unchanged. -/
theorem accessor_failure_preserves_state_witness :
    sampleScalarRO.set 4 (7 : Nat) 4 =
      (.error .HW_UNSPECIFIED_ERR, sampleScalarRO) :=
  (accessor_failure_preserves_state sampleScalarRO sampleArrayRO 4 7 [7] 4
    .HW_UNSPECIFIED_ERR .HW_UNSPECIFIED_ERR).2.2.2.1 (by decide) (by decide)
    (by decide) (by decide)

/-- Claim C5: `ArrayProp::set` succeeds only when `src_size` equals exactly
one element's size — with a non-null `src` any other size fails with
`BadPropertySize` leaving the state unchanged — and on success the entire
stored sequence is replaced by the `src_size / element_size` (= 1) elements
read starting at `src`. -/
theorem array_set_single_element_contract {α : Type} (p : ArrayProp α)
    (srcAddr : Nat) (srcVals : List α) (dataSize : Nat) :
    ((p.set srcAddr srcVals dataSize).1 = .ok () → dataSize = p.itemSize) ∧
    (srcAddr ≠ 0 → dataSize ≠ p.itemSize →
      p.set srcAddr srcVals dataSize =
        (.error .HW_BAD_PROPERTY_SIZE_ERR, p)) ∧
    (0 < p.itemSize → (p.set srcAddr srcVals dataSize).1 = .ok () →
      (p.set srcAddr srcVals dataSize).2.props =
        srcVals.take (dataSize / p.itemSize) ∧ dataSize / p.itemSize = 1) := by
  refine ⟨fun hok => (arraySet_ok_conditions hok).2.1, fun h1 h2 => ?_,
    fun hpos hok => ?_⟩
  · simp [ArrayProp.set, h1, h2]
  · obtain ⟨c1, c2, c3, c4⟩ := arraySet_ok_conditions hok
    constructor
    · simp [ArrayProp.set, c1, c2, c3, c4]
    · rw [c2]
      exact Nat.div_self hpos

/-- Witness for claim C5 at a concrete input: a one-element `set` on
`sampleArray` (element size 4, buffer size 4) replaces the stored sequence
with that single element. -/
theorem array_set_single_element_contract_witness :
    (sampleArray.set 4 [(7 : Nat)] 4).2.props =
      ([(7 : Nat)].take (4 / 4)) ∧ 4 / 4 = 1 :=
  (array_set_single_element_contract sampleArray 4 [7] 4).2.2 (by decide) rfl

/-- Helper: an association-list lookup (`List::lookup`, the model of the
static selector match) is the head of the matching entries. -/
theorem lookup_eq_head_of_filter {π : Type} (sel : Nat) (own : List (Nat × π)) :
    List.lookup sel own =
      ((own.filter (fun q => q.1 = sel)).map (fun q => q.2)).head? := by
  induction own with
  | nil => rfl
  | cons a t ih =>
    obtain ⟨k, v⟩ := a
    by_cases h : sel = k
    · subst h
      simp [List.lookup]
    · rw [List.lookup, show (sel == k) = false from beq_false_of_ne h]
      simp [h, Ne.symm h, ih]

mutual

/-- Helper: `get_property` returns the head of the depth-first list of all
matches (own slots first, then sub-objects in declaration order). -/
theorem get_property_eq_found {π : Type} :
    ∀ (o : AudioObject π) (sel : Nat),
      o.get_property sel = (o.foundProps sel).head?
  | .mk own subs, sel => by
    rw [AudioObject.get_property, AudioObject.foundProps]
    rw [lookup_eq_head_of_filter sel own]
    rw [List.head?_append]
    rw [get_property_subs_eq_found subs sel]
    cases ((own.filter (fun q => q.1 = sel)).map (fun q => q.2)).head? <;> rfl

/-- Helper: the sub-object loop of `get_property` returns the head of the
concatenated depth-first match lists. -/
theorem get_property_subs_eq_found {π : Type} :
    ∀ (l : List (AudioObject π)) (sel : Nat),
      AudioObject.get_property_subs l sel =
        (AudioObject.foundPropsSubs l sel).head?
  | [], _ => rfl
  | o :: rest, sel => by
    rw [AudioObject.get_property_subs, AudioObject.foundPropsSubs]
    rw [List.head?_append]
    rw [get_property_eq_found o sel, get_property_subs_eq_found rest sel]
    cases (AudioObject.foundProps o sel).head? <;> rfl

end

/-- Claim C6: `get_property` checks the object's own slots first and then
recurses depth-first into the owned sub-objects in declaration order,
returning the first match — i.e. the head of the depth-first list of all
matches — so a selector present only on a grandchild is found, and an absent
selector yields `none` (never an error: the return type is an `Option`, and
the result is total). -/
theorem get_property_resolution {π : Type} (o : AudioObject π) (sel : Nat) :
    o.get_property sel = (o.foundProps sel).head? ∧
    grandchildTree.get_property 42 = some 7 ∧
    grandchildTree.get_property 99 = none :=
  ⟨get_property_eq_found o sel, rfl, rfl⟩

/-- Claim C7: `query_interface` rejects a null `out_interface` first
(`kAudioHardwareIllegalOperationError`); with the plug-in interface UUID or
the IUnknown UUID it returns 0 and writes the very driver pointer it was
given through `out_interface`; with any other UUID it returns the fixed
`E_NOINTERFACE` code and leaves `out_interface` untouched. -/
theorem query_interface_contract (d : Nat) (u : UUIDBytes) (outAddr : Nat) :
    query_interface d u 0 =
      ⟨Int.ofNat kAudioHardwareIllegalOperationError, none⟩ ∧
    (outAddr ≠ 0 →
      (u = AUDIO_SERVER_DRIVER_PLUGIN_INTERFACE ∨ u = I_UNKNOWN_INTERFACE) →
      query_interface d u outAddr = ⟨0, some d⟩) ∧
    (outAddr ≠ 0 → u ≠ AUDIO_SERVER_DRIVER_PLUGIN_INTERFACE →
      u ≠ I_UNKNOWN_INTERFACE →
      query_interface d u outAddr = ⟨E_NOINTERFACE, none⟩) := by
  refine ⟨rfl, fun h1 h2 => ?_, fun h1 h2 h3 => ?_⟩
  · rcases h2 with h2 | h2 <;> simp [query_interface, h1, h2]
  · simp [query_interface, h1, h2, h3]

/-- Witness for claim C7 at a concrete input: querying the IUnknown UUID on a
non-null out-pointer succeeds and writes back the driver pointer 77. -/
theorem query_interface_contract_witness :
    query_interface 77 I_UNKNOWN_INTERFACE 4 = ⟨0, some 77⟩ :=
  (query_interface_contract 77 I_UNKNOWN_INTERFACE 4).2.1 (by decide)
    (Or.inr rfl)

/-- Claim C8: `create` with the plug-in type UUID
`443ABAB8-E7B3-491A-B985-BEB9187030DB` returns a non-null container holding
the user driver state with refcount 1; `create` with any other UUID returns
null. -/
theorem create_contract {σ : Type} (st : σ) (u : UUIDBytes) :
    create AUDIO_SERVER_DRIVER_PLUGIN_TYPE st = some ⟨1, st⟩ ∧
    (u ≠ AUDIO_SERVER_DRIVER_PLUGIN_TYPE → create u st = none) := by
  refine ⟨rfl, fun h => ?_⟩
  simp [create, h]

/-- Witness for claim C8 at a concrete input: `create` with the all-zero UUID
returns null. -/
theorem create_contract_witness : create zeroUuid (0 : Nat) = none :=
  (create_contract (0 : Nat) zeroUuid).2 (by decide)

/-- Counterexample to claim C9 as stated: not every interleaving of N retains
and N releases preserves the count.  Starting from refcount 1, the
interleaving release, release, retain, retain (N = 2) ends at 2, because the
second release saturates at 0. -/
theorem retain_release_interleaving_counterexample :
    applyRefOps [.releaseOp, .releaseOp, .retainOp, .retainOp] 1 ≠ 1 := by
  decide

/-- Helper: `applyRefOps` distributes over list append. -/
theorem applyRefOps_append (l1 l2 : List RefOp) (c : Nat) :
    applyRefOps (l1 ++ l2) c = applyRefOps l2 (applyRefOps l1 c) := by
  simp [applyRefOps]

/-- Helper: N retains add N to the count (below the u32 wrap). -/
theorem applyRefOps_retains (N c : Nat) (h : c + N < 2 ^ 32) :
    applyRefOps (List.replicate N .retainOp) c = c + N := by
  induction N generalizing c with
  | zero => rfl
  | succ n ih =>
    rw [List.replicate_succ]
    have h1 : c + 1 < 2 ^ 32 := by omega
    have hstep : applyRefOps (.retainOp :: List.replicate n .retainOp) c =
        applyRefOps (List.replicate n .retainOp) ((c + 1) % 2 ^ 32) := rfl
    rw [hstep, Nat.mod_eq_of_lt h1, ih (c + 1) (by omega)]
    omega

/-- Helper: N releases subtract N from the count, saturating at 0. -/
theorem applyRefOps_releases (N c : Nat) :
    applyRefOps (List.replicate N .releaseOp) c = c - N := by
  induction N generalizing c with
  | zero => rfl
  | succ n ih =>
    rw [List.replicate_succ]
    have hstep : applyRefOps (.releaseOp :: List.replicate n .releaseOp) c =
        applyRefOps (List.replicate n .releaseOp) (c - 1) := rfl
    rw [hstep, ih (c - 1)]
    omega

/-- Claim C9 (amended): N retains followed by N releases leave the refcount
unchanged (while it stays below the u32 wrap); an arbitrary interleaving can
change it, since release saturates at 0.  `release` never deallocates: every
non-null container survives with its driver state intact and only the
saturating-decremented count, including at count 0. -/
theorem retain_then_release_balanced {σ : Type} (c N : Nat)
    (h : c + N < 2 ^ 32) (cont : PluginDriverImplementation σ) :
    applyRefOps (List.replicate N .retainOp ++ List.replicate N .releaseOp) c
      = c ∧
    (releaseRaw (some cont)).2 =
      some { cont with refcount := cont.refcount - 1 } ∧
    releaseRaw (some { cont with refcount := 0 }) =
      (0, some { cont with refcount := 0 }) := by
  refine ⟨?_, rfl, rfl⟩
  rw [applyRefOps_append, applyRefOps_retains N c h, applyRefOps_releases]
  omega

/-- Witness for the amended claim C9 at a concrete input: three retains then
three releases starting from refcount 1 end back at 1. -/
theorem retain_then_release_balanced_witness :
    applyRefOps
      (List.replicate 3 .retainOp ++ List.replicate 3 .releaseOp) 1 = 1 :=
  (retain_then_release_balanced 1 3 (by omega)
    (⟨5, 0⟩ : PluginDriverImplementation Nat)).1

/-- Claim C10: `retain` returns the incremented (stored) count except at
previous count 0, where it returns 0 while the stored count becomes 1;
`release` returns the decremented count and saturates at 0 — releasing at
count 0 returns 0 and leaves the count at 0, never underflowing. -/
theorem retain_release_return_values (c : Nat) :
    (c ≠ 0 → (retain c).1 = (retain c).2) ∧
    retain 0 = (0, 1) ∧
    (retain c).2 = (c + 1) % 2 ^ 32 ∧
    release 0 = (0, 0) ∧
    (release c).1 = (release c).2 ∧
    (release c).2 = c - 1 := by
  refine ⟨fun h => ?_, rfl, rfl, rfl, rfl, rfl⟩
  simp [retain, h]

/-- Witness for claim C10 at a concrete input: at previous count 5, retain
returns the stored count 6. -/
theorem retain_release_return_values_witness :
    (retain 5).1 = (retain 5).2 :=
  (retain_release_return_values 5).1 (by decide)

end Cahal

